import Mathlib

/-!
Verification of the DRBD request state machine and transfer log against its
sources.  Two source files are embedded:

* `drbd_req.c` (the per-request state machine of the modern tree): the flag
  set `RQ_*`, `req_may_be_done`, `_req_is_done`, `req_may_be_completed`,
  `__req_mod`, `start_new_tl_epoch`, `drbd_make_request`,
  `find_oldest_request`, `request_timer_fn`.
* `drbd/drbd_main.c` (the transfer-log / sender file of the 0.6-era tree):
  `tl_release`, `tl_clear`, `_drbd_send_barrier`, `drbd_send_b_ack`,
  `drbd_send_data`, and the byte-order behaviour of `drbd_send`.

Kernel integers are modelled as `Nat`/`Int`; flag words are modelled as
records of `Bool` (the C code only ever tests, sets and clears individual
bits, so a record of booleans is an exact image of the bit-set).  Side
effects that the claims talk about (bitmap marking, freeing, queueing,
timer re-arming) are returned as explicit result fields.
-/

/- ------------------------------------------------------------------ -/
/- Part 1: the modern request state machine, from drbd_req.c           -/
/- ------------------------------------------------------------------ -/

/-- The `RQ_*` request state bits.  `drbd_req.c` manipulates the bit-set
`req->rq_state`; the individual bits are declared in `drbd_req.h` of the
same tree (not under the sources given); the spec's data model lists the
same two sub-enumerations (local and network) plus the orthogonal
modifier bits `POSTPONED` and `IN_ACT_LOG`. -/
structure RqState where
  write : Bool                -- RQ_WRITE (set iff the master bio is a write)
  local_pending : Bool        -- RQ_LOCAL_PENDING
  local_completed : Bool      -- RQ_LOCAL_COMPLETED
  local_ok : Bool             -- RQ_LOCAL_OK
  local_aborted : Bool        -- RQ_LOCAL_ABORTED
  in_act_log : Bool           -- RQ_IN_ACT_LOG
  net_pending : Bool          -- RQ_NET_PENDING
  net_queued : Bool           -- RQ_NET_QUEUED
  net_sent : Bool             -- RQ_NET_SENT
  net_ok : Bool               -- RQ_NET_OK
  net_done : Bool             -- RQ_NET_DONE
  net_sis : Bool              -- RQ_NET_SIS
  exp_receive_ack : Bool      -- RQ_EXP_RECEIVE_ACK (wire protocol B)
  exp_write_ack : Bool        -- RQ_EXP_WRITE_ACK (wire protocol C)
  postponed : Bool            -- RQ_POSTPONED
  deriving DecidableEq, Repr

/-- `s & RQ_NET_MASK`: the network lifecycle bits of the request, i.e. the
spec's network sub-enumeration without the frozen protocol-expectation
bits and the orthogonal `POSTPONED` modifier. -/
def rq_net_mask_set (s : RqState) : Bool :=
  s.net_pending || s.net_queued || s.net_sent || s.net_ok || s.net_done || s.net_sis

/-- One `struct drbd_request` as far as the completion logic reads it:
the state bits, whether `master_bio` is still attached, the local error
stored as `ERR_PTR` in `private_bio` (`0` = no error recorded), whether
the conflict-detection interval is still registered
(`!drbd_interval_empty(&req->i)` = `interval_empty = false`), whether the
request is on the transfer log (`!list_empty(&req->tl_requests)`), and the
epoch it was stamped with. -/
structure DrbdRequest where
  rq_state : RqState
  master_bio : Bool
  private_error : Int
  interval_empty : Bool
  in_tl : Bool
  epoch : Nat
  deriving DecidableEq, Repr

/-- The resource fields the epoch controller uses: `current_tle_writes`
and `current_tle_nr`.  `current_tle_nr` is an `atomic_t` counter that is
only ever read and incremented; we model it as an unbounded `Nat` (the
spec: "monotonically increasing, wraps are not expected"). -/
structure Resource where
  current_tle_writes : Nat
  current_tle_nr : Nat
  deriving DecidableEq, Repr

def EIO_errno : Int := 5
def ENOMEM_errno : Int := 12
def EOPNOTSUPP_errno : Int := 95

/-- `start_new_tl_epoch` (drbd_req.c:196): reset the write counter and
bump the epoch number (`wake_all_senders` is a pure notification). -/
def start_new_tl_epoch (res : Resource) : Resource :=
  { current_tle_writes := 0
    current_tle_nr := res.current_tle_nr + 1 }

/-- What happened to the request object when `_req_is_done` ran (or did
not run).  `reached` = `_req_is_done` was entered, which unconditionally
performs `list_del_init(&req->tl_requests)` (removal from the transfer
log); it then either frees the request or, for `RQ_POSTPONED`, hands it
to the retry queue (`drbd_restart_write`). -/
structure DoneResult where
  reached : Bool
  freed : Bool
  restarted : Bool
  set_out_of_sync : Bool
  set_in_sync : Bool
  deriving DecidableEq, Repr

def noneDone : DoneResult :=
  { reached := false, freed := false, restarted := false
    set_out_of_sync := false, set_in_sync := false }

/-- `_req_is_done` (drbd_req.c:129): remove from the transfer log; for a
write, set out-of-sync unless both OK bits are set and set in-sync when
both OK bits and `RQ_NET_SIS` are set (the activity-log release is a pure
resource release); then free the request unless it is `RQ_POSTPONED`, in
which case hand it to the retry queue instead. -/
def _req_is_done (s : RqState) : DoneResult :=
  { reached := true
    freed := !s.postponed
    restarted := s.postponed
    set_out_of_sync := s.write && (!s.net_ok || !s.local_ok)
    set_in_sync := s.write && s.net_ok && s.local_ok && s.net_sis }

/-- `req_may_be_done` (drbd_req.c:234): the centralized destructibility
check.  Bail out while `master_bio` is present (unless `RQ_POSTPONED`),
while `RQ_LOCAL_PENDING` is set, and while a network part exists that is
not yet `RQ_NET_DONE`; otherwise run `_req_is_done`. -/
def req_may_be_done (req : DrbdRequest) : DoneResult :=
  let s := req.rq_state
  if req.master_bio && !s.postponed then noneDone
  else if s.local_pending then noneDone
  else if !(rq_net_mask_set s) || s.net_done then _req_is_done s
  else noneDone

/-- The outcome of `req_may_be_completed`: the updated request, the
updated resource (a soft epoch close may happen), `m : Option Int` — the
`bio_and_error` out-parameter, `some e` meaning the master bio is handed
back for completion with error `e` — and what `req_may_be_done` did. -/
structure CompletionResult where
  req : DrbdRequest
  res : Resource
  m : Option Int
  done : DoneResult
  deriving DecidableEq, Repr

/-- `req_may_be_completed` (drbd_req.c:270).  Gate on
`RQ_LOCAL_PENDING && !RQ_LOCAL_ABORTED`, `RQ_NET_QUEUED`,
`RQ_NET_PENDING`.  If the master bio is still attached: success iff
`RQ_LOCAL_OK || RQ_NET_OK`; remove the conflict interval; soft-close the
epoch when a write's epoch equals `current_tle_nr`; push a failed READ
that is on the transfer log back to the retry queue by setting
`RQ_POSTPONED`; unless postponed, detach the master bio and report
`0` on success, else the stored private error if non-zero, else `-EIO`.
Finally always consult `req_may_be_done`.  (`bio_rw(master_bio)` is
modelled by the `RQ_WRITE` bit, which `drbd_req_new` derives from the
same bio; READA is not distinguished from READ.) -/
def req_may_be_completed (req : DrbdRequest) (res : Resource) : CompletionResult :=
  let s := req.rq_state
  if s.local_pending && !s.local_aborted then ⟨req, res, none, noneDone⟩
  else if s.net_queued then ⟨req, res, none, noneDone⟩
  else if s.net_pending then ⟨req, res, none, noneDone⟩
  else if req.master_bio then
    let ok := s.local_ok || s.net_ok
    let error := req.private_error
    let req1 := { req with interval_empty := true }
    let res1 := if s.write && (req.epoch == res.current_tle_nr)
                then start_new_tl_epoch res else res
    let req2 := if !ok && !s.write && req1.in_tl
                then { req1 with rq_state := { req1.rq_state with postponed := true } }
                else req1
    if !req2.rq_state.postponed then
      let req3 := { req2 with master_bio := false }
      ⟨req3, res1,
        some (if ok then 0 else if error ≠ 0 then error else -EIO_errno),
        req_may_be_done req3⟩
    else
      ⟨req2, res1, none, req_may_be_done req2⟩
  else
    ⟨req, res, none, req_may_be_done req⟩

/-- `req_may_be_completed_not_susp` (drbd_req.c:381): only act when the
device is not suspended. -/
def req_may_be_completed_not_susp (susp : Bool) (req : DrbdRequest) (res : Resource) :
    CompletionResult :=
  if !susp then req_may_be_completed req res else ⟨req, res, none, noneDone⟩

/-- The wire protocols of `net_conf->wire_protocol`. -/
inductive Protocol
  | A
  | B
  | C
  deriving DecidableEq, Repr

/-- The fields of `struct net_conf` read by the embedded functions. -/
structure NetConf where
  wire_protocol : Protocol
  timeout : Nat
  ko_count : Nat
  max_epoch_size : Nat
  deriving DecidableEq, Repr

/-- The `enum drbd_req_event` values handled by `__req_mod`
(CamelCased). -/
inductive ReqEvent
  | ToBeSent
  | ToBeSubmitted
  | CompletedOk
  | AbortDiskIo
  | WriteCompletedWithError
  | ReadAheadCompletedWithError
  | ReadCompletedWithError
  | QueueForNetRead
  | QueueForNetWrite
  | QueueForSendOos
  | ReadRetryRemoteCanceled
  | SendCanceled
  | SendFailed
  | HandedOverToNetwork
  | OosHandedToNetwork
  | ConnectionLostWhilePending
  | DiscardWrite
  | WriteAckedByPeerAndSis
  | WriteAckedByPeer
  | RecvAckedByPeer
  | PostponeWrite
  | NegAcked
  | FailFrozenDiskIo
  | RestartFrozenDiskIo
  | Resend
  | BarrierAcked
  | DataReceived
  deriving DecidableEq, Repr

/-- Helper: package a state-only update with no completion attempt. -/
def modNoCompletion (req : DrbdRequest) (res : Resource) : CompletionResult :=
  ⟨req, res, none, noneDone⟩

/-- Helper: lift a state-bit update into the request. -/
def withState (req : DrbdRequest) (s : RqState) : DrbdRequest :=
  { req with rq_state := s }

/-- The `BARRIER_ACKED` arm of `__req_mod` (drbd_req.c:716), shared with
the fall-through from `RESEND`: nothing for non-writes; set
`RQ_NET_DONE` when any network-mask bit is set; then `req_may_be_done`
(allowed while suspended). -/
def barrierAckedStep (req : DrbdRequest) (res : Resource) : CompletionResult :=
  if !req.rq_state.write then ⟨req, res, none, noneDone⟩
  else
    let req' := if rq_net_mask_set req.rq_state
                then { req with rq_state := { req.rq_state with net_done := true } }
                else req
    ⟨req', res, none, req_may_be_done req'⟩

/-- `__req_mod` (drbd_req.c:401): the centralized event handler.  Inputs
besides the request and the event: the resource (for the epoch
controller), the negotiated `net_conf` (wire protocol for `TO_BE_SENT`,
`max_epoch_size` for `QUEUE_FOR_NET_WRITE`) and `drbd_suspended(device)`.
Counter maintenance (`ap_pending`, `ap_in_flight`, `writ_cnt`,
`read_cnt`), work-queue pushes and `D_ASSERT` logging are elided; every
`rq_state` mutation, every epoch-controller mutation and every call into
the completion logic is reproduced.  `bio_data_dir(master_bio)` and
`bio_rw(master_bio)` are modelled by the `RQ_WRITE` bit. -/
def __req_mod (req : DrbdRequest) (res : Resource) (nc : NetConf) (susp : Bool) :
    ReqEvent → CompletionResult
  | .ToBeSent =>
      let s := req.rq_state
      modNoCompletion (withState req
        { s with net_pending := true
                 exp_write_ack := s.exp_write_ack || (nc.wire_protocol == .C)
                 exp_receive_ack := s.exp_receive_ack || (nc.wire_protocol == .B) }) res
  | .ToBeSubmitted =>
      modNoCompletion (withState req { req.rq_state with local_pending := true }) res
  | .CompletedOk =>
      let req' := withState req
        { req.rq_state with local_completed := true, local_ok := true,
                            local_pending := false }
      req_may_be_completed_not_susp susp req' res
  | .AbortDiskIo =>
      let req' := withState req { req.rq_state with local_aborted := true }
      req_may_be_completed_not_susp susp req' res
  | .WriteCompletedWithError =>
      let req' := withState req
        { req.rq_state with local_completed := true, local_pending := false }
      req_may_be_completed_not_susp susp req' res
  | .ReadAheadCompletedWithError =>
      let req' := withState req
        { req.rq_state with local_completed := true, local_pending := false }
      req_may_be_completed_not_susp susp req' res
  | .ReadCompletedWithError =>
      -- drbd_set_out_of_sync effect elided; no completion attempt is made.
      modNoCompletion (withState req
        { req.rq_state with local_completed := true, local_pending := false }) res
  | .QueueForNetRead =>
      modNoCompletion
        { req with interval_empty := false
                   rq_state := { req.rq_state with net_queued := true } } res
  | .QueueForNetWrite =>
      let req' := withState req { req.rq_state with net_queued := true }
      let res' := if res.current_tle_writes ≥ nc.max_epoch_size
                  then start_new_tl_epoch res else res
      modNoCompletion req' res'
  | .QueueForSendOos =>
      modNoCompletion (withState req { req.rq_state with net_queued := true }) res
  | .ReadRetryRemoteCanceled =>
      let req' := withState req { req.rq_state with net_queued := false }
      req_may_be_completed_not_susp susp req' res
  | .SendCanceled =>
      let req' := withState req { req.rq_state with net_queued := false }
      req_may_be_completed_not_susp susp req' res
  | .SendFailed =>
      let req' := withState req { req.rq_state with net_queued := false }
      req_may_be_completed_not_susp susp req' res
  | .HandedOverToNetwork =>
      let s := req.rq_state
      let s1 := if s.write && !(s.exp_receive_ack || s.exp_write_ack)
                   && s.net_pending
                then { s with net_pending := false, net_ok := true }
                else s
      let req' := withState req { s1 with net_queued := false, net_sent := true }
      req_may_be_completed_not_susp susp req' res
  | .OosHandedToNetwork =>
      let req' := withState req
        { req.rq_state with net_queued := false, net_done := true }
      req_may_be_completed_not_susp susp req' res
  | .ConnectionLostWhilePending =>
      let req' := withState req
        { req.rq_state with net_ok := false, net_pending := false, net_done := true }
      req_may_be_completed req' res  -- allowed while state.susp
  | .DiscardWrite =>
      let s := { req.rq_state with net_done := true }
      let s' := { s with net_ok := true, net_pending := false }
      req_may_be_completed_not_susp susp (withState req s') res
  | .WriteAckedByPeerAndSis =>
      let s := { req.rq_state with net_sis := true }
      let s' := { s with net_ok := true, net_pending := false }
      req_may_be_completed_not_susp susp (withState req s') res
  | .WriteAckedByPeer =>
      let s' := { req.rq_state with net_ok := true, net_pending := false }
      req_may_be_completed_not_susp susp (withState req s') res
  | .RecvAckedByPeer =>
      let s' := { req.rq_state with net_ok := true, net_pending := false }
      req_may_be_completed_not_susp susp (withState req s') res
  | .PostponeWrite =>
      let req' := withState req { req.rq_state with postponed := true }
      req_may_be_completed_not_susp susp req' res
  | .NegAcked =>
      let req' := withState req
        { req.rq_state with net_ok := false, net_pending := false, net_done := true }
      req_may_be_completed_not_susp susp req' res
  | .FailFrozenDiskIo =>
      if !req.rq_state.local_completed then modNoCompletion req res
      else req_may_be_completed req res  -- allowed while state.susp
  | .RestartFrozenDiskIo =>
      if !req.rq_state.local_completed then modNoCompletion req res
      else modNoCompletion
        (withState req { req.rq_state with local_completed := false }) res
  | .Resend =>
      if !req.rq_state.net_ok then
        -- re-queue on the sender (work-queue push elided); no state change
        modNoCompletion req res
      else
        -- fall through to BARRIER_ACKED
        barrierAckedStep req res
  | .BarrierAcked =>
      barrierAckedStep req res
  | .DataReceived =>
      let req' := withState req
        { req.rq_state with net_pending := false, net_ok := true, net_done := true }
      req_may_be_completed_not_susp susp req' res


/-- Outcome of the `drbd_make_request` entry point (drbd_req.c:1144):
either the bio is completed immediately with an error (`rejected`), or it
is passed into `__drbd_make_request` (`submitted`).  The two `D_ASSERT`
checks on the bio size only log on failure; their boolean outcomes are
recorded (`true` = assertion held). -/
structure MakeRequestResult where
  rejected : Option Int
  submitted : Bool
  assert_size_pos : Bool
  assert_size_aligned : Bool
  deriving DecidableEq, Repr

/-- `drbd_make_request` (drbd_req.c:1144): reject `DRBD_REQ_HARDBARRIER`
bios with `-EOPNOTSUPP`; otherwise `D_ASSERT` that the size is positive
and 512-aligned ("what we blindly assume") and submit the bio to
`__drbd_make_request` unconditionally. -/
def drbd_make_request (hardbarrier : Bool) (bi_size : Nat) : MakeRequestResult :=
  if hardbarrier then
    { rejected := some (-EOPNOTSUPP_errno), submitted := false
      assert_size_pos := true, assert_size_aligned := true }
  else
    { rejected := none, submitted := true
      assert_size_pos := decide (0 < bi_size)
      assert_size_aligned := decide (bi_size % 512 = 0) }

/-- One transfer-log entry as read by the request timer: the state bits,
the submission time (`req->start_time`, jiffies) and whether
`req->device == device` for the device whose timer fired. -/
structure TimerRequest where
  rq_state : RqState
  start_time : Nat
  device_match : Bool
  deriving DecidableEq, Repr

/-- `find_oldest_request` (drbd_req.c:1208): the first (oldest) transfer
log entry with `RQ_NET_PENDING` or `RQ_LOCAL_PENDING` set. -/
def find_oldest_request (tl : List TimerRequest) : Option TimerRequest :=
  tl.find? (fun r => r.rq_state.net_pending || r.rq_state.local_pending)

/-- `min_not_zero` (kernel helper used at drbd_req.c:1238): the minimum
of its arguments ignoring zeros. -/
def min_not_zero (a b : Nat) : Nat :=
  if a = 0 then b else if b = 0 then a else min a b

/-- What one firing of `request_timer_fn` did: did it force the
connection to `C_TIMEOUT`, did it escalate a local disk error
(`__drbd_chk_io_error`), and at which jiffies value was the timer
re-armed (`none` = the recurring timer stopped). -/
structure TimerResult where
  conn_timeout : Bool
  disk_error : Bool
  rearm : Option Nat
  deriving DecidableEq, Repr

/-- `request_timer_fn` (drbd_req.c:1220).  `ent` is
`nc->timeout * HZ/10 * nc->ko_count` when a `net_conf` exists, else 0;
`dt` is `disk_conf->disk_timeout * HZ/10` when the backing device is
attached (`get_ldev`), else 0; `et = min_not_zero(dt, ent)`.  Stop when
`et` is 0 or the device is in a stopped state; re-arm at `now + et` when
no request is pending; otherwise check the oldest pending request
against `ent` (network) and `dt` (disk) and re-arm at
`(start + et <= now ? now : start) + et`.
First, `ent = nc ? nc->timeout * HZ/10 * nc->ko_count : 0`
(drbd_req.c:1230). -/
def timer_ent (nc : Option NetConf) (hz : Nat) : Nat :=
  match nc with
  | some c => c.timeout * hz / 10 * c.ko_count
  | none => 0

/-- `dt = disk_conf->disk_timeout * HZ/10` when the backing device is
attached, else 0 (drbd_req.c:1232-1235). -/
def timer_dt (disk_timeout : Option Nat) (hz : Nat) : Nat :=
  match disk_timeout with
  | some t => t * hz / 10
  | none => 0

/-- `request_timer_fn` (drbd_req.c:1220), with `ent`/`dt` as above and
`et = min_not_zero(dt, ent)`. -/
def request_timer_fn (nc : Option NetConf) (disk_timeout : Option Nat) (hz : Nat)
    (stopped_state : Bool) (tl : List TimerRequest) (now : Nat) : TimerResult :=
  let ent := timer_ent nc hz
  let dt := timer_dt disk_timeout hz
  let et := min_not_zero dt ent
  if et = 0 || stopped_state then
    { conn_timeout := false, disk_error := false, rearm := none }
  else
    match find_oldest_request tl with
    | none => { conn_timeout := false, disk_error := false, rearm := some (now + et) }
    | some r =>
      { conn_timeout :=
          decide (ent ≠ 0) && r.rq_state.net_pending
            && decide (r.start_time + ent ≤ now)
        disk_error :=
          decide (dt ≠ 0) && r.rq_state.local_pending && r.device_match
            && decide (r.start_time + dt ≤ now)
        rearm := some ((if r.start_time + et ≤ now then now else r.start_time) + et) }

/- ------------------------------------------------------------------ -/
/- Part 2: the 0.6-era transfer log and sender, from drbd/drbd_main.c  -/
/- ------------------------------------------------------------------ -/

/-- One slot of the old ring transfer log: a `TL_BARRIER` marker, a
`TL_EMPTY` slot (a request cleared by `tl_dependence`), or a live
request pointer, carried here with its `rq_status` word and its sector
(`GET_SECTOR(*p)`). -/
inductive TlEntry
  | barrier
  | empty
  | req (rq_status : Nat) (sector : Nat)
  deriving DecidableEq, Repr

def TlEntry.isBarrier : TlEntry → Bool
  | .barrier => true
  | _ => false

/-- Modelled from the spec: the old tree's request status codes
(`RQ_DRBD_SENT` etc., declared in a header that is not under the given
sources).  The call sites in `drbd_main.c` only compare
`rq_status & 0xfffe` against `RQ_DRBD_SENT` (bit 0 is the per-part
success bit, masked off), so only distinctness of the codes matters; the
spec's request lifecycle distinguishes nothing-done / sent (network
done) / written (local done) / both. -/
def RQ_DRBD_NOTHING : Nat := 0x0002
def RQ_DRBD_SENT : Nat := 0x0010
def RQ_DRBD_WRITTEN : Nat := 0x0100
def RQ_DRBD_DONE : Nat := RQ_DRBD_SENT ||| RQ_DRBD_WRITTEN

/-- Modelled from the spec: the wire-protocol constants of `drbd.h` (not
under the given sources); only their distinctness matters. -/
def DRBD_PROT_A : Nat := 1
def DRBD_PROT_B : Nat := 2
def DRBD_PROT_C : Nat := 3

/-- The fields of the old `struct Drbd_Conf` (`mdev`) that the embedded
transfer-log operations read and write: the log from `tl_begin` to
`tl_end` (oldest first), the barrier-ack bookkeeping counter
`barrier_nr_done`, the connection state `cstate`, the configured wire
protocol, and the block-size exponent used for bitmap marking. -/
structure Mdev where
  tl : List TlEntry
  barrier_nr_done : Nat
  cstate : Nat
  wire_protocol : Nat
  blk_size_b : Nat
  deriving DecidableEq, Repr

/-- The do-while loop of `tl_release` (drbd_main.c:275-285): advance
`tl_begin` past at least one slot, counting every slot passed, until
`*tl_begin` is a barrier (which is left in place as the new oldest
entry).  Returns (slots passed, remaining log, ran-off-the-end flag);
the last component models the `tl messed up!` condition (`tl_begin`
reaching `tl_end`), after which the C loop would read past the end — the
model stops there. -/
def tl_release_loop : List TlEntry → Nat × List TlEntry × Bool
  | [] => (0, [], true)
  | _ :: rest =>
    match rest with
    | .barrier :: _ => (1, rest, false)
    | _ =>
      let r := tl_release_loop rest
      (r.1 + 1, r.2.1, r.2.2)

/-- The outcome of `tl_release`: the updated `mdev`, the computed
`epoch_size`, and whether each of the two `printk(KERN_ERR ...)`
diagnostics fired (`invalid barrier number!!` and
`Epoch set size wrong!!`). -/
structure ReleaseResult where
  mdev : Mdev
  epoch_size : Int
  barrier_mismatch : Bool
  size_mismatch : Bool
  messed_up : Bool
  deriving DecidableEq, Repr

/-- `tl_release` (drbd_main.c:264): start `epoch_size` at -1 when the
oldest slot is itself a barrier, advance past slots up to the next
barrier counting each one, compare `barrier_nr_done` against the
reported `barrier_nr` (log on mismatch), increment `barrier_nr_done`,
and compare `epoch_size` against the reported `set_size` (log on
mismatch).  Nothing else of `mdev` is touched and the function always
returns normally. -/
def tl_release (mdev : Mdev) (barrier_nr : Nat) (set_size : Nat) : ReleaseResult :=
  let adj : Int := match mdev.tl.head? with
    | some .barrier => -1
    | _ => 0
  let r := tl_release_loop mdev.tl
  let epoch_size : Int := adj + (r.1 : Int)
  { mdev := { mdev with tl := r.2.1, barrier_nr_done := mdev.barrier_nr_done + 1 }
    epoch_size := epoch_size
    barrier_mismatch := mdev.barrier_nr_done != barrier_nr
    size_mismatch := epoch_size != (set_size : Int)
    messed_up := r.2.2 }

/-- The externally visible actions of `tl_clear`: bitmap out-of-sync
marks (`bm_set_bit(..., SS_OUT_OF_SYNC)`, recording the block number
passed), request completions (`drbd_end_req(*p, nextstate, uptodate)`,
recording the request's sector and the literal arguments), and
`dec_pending`. -/
inductive ClearEffect
  | setOutOfSync (blocknr : Nat)
  | endReq (sector : Nat) (nextstate : Nat) (uptodate : Nat)
  | decPending
  deriving DecidableEq, Repr

/-- The per-slot body of the `tl_clear` loop (drbd_main.c:348-357):
skip barriers and empties; mark the covered block out of sync; for wire
protocols B and C, when `(rq_status & 0xfffe) != RQ_DRBD_SENT`, call
`drbd_end_req(*p, RQ_DRBD_SENT, 1)` and `dec_pending`. -/
def tl_clear_entry (endp : Bool) (blk_size_b : Nat) : TlEntry → List ClearEffect
  | .barrier => []
  | .empty => []
  | .req st sec =>
    ClearEffect.setOutOfSync (sec >>> (blk_size_b - 9)) ::
      (if endp && ((st &&& 0xfffe) != RQ_DRBD_SENT) then
        [ClearEffect.endReq sec RQ_DRBD_SENT 1, ClearEffect.decPending]
      else [])

/-- `tl_clear` (drbd_main.c:340): walk every slot from `tl_begin` to
`tl_end`, apply `tl_clear_entry`, then `tl_init` (the log becomes
empty).  `end` is whether the wire protocol is B or C. -/
def tl_clear (mdev : Mdev) : Mdev × List ClearEffect :=
  let endp := (mdev.wire_protocol == DRBD_PROT_B) || (mdev.wire_protocol == DRBD_PROT_C)
  ({ mdev with tl := [] },
   mdev.tl.flatMap (tl_clear_entry endp mdev.blk_size_b))

/-- Big-endian byte image of a 16-bit value. -/
def beBytes16 (n : Nat) : List Nat :=
  [n / 2 ^ 8 % 2 ^ 8, n % 2 ^ 8]

/-- Big-endian byte image of a 32-bit value. -/
def beBytes32 (n : Nat) : List Nat :=
  [n / 2 ^ 24 % 2 ^ 8, n / 2 ^ 16 % 2 ^ 8, n / 2 ^ 8 % 2 ^ 8, n % 2 ^ 8]

/-- Little-endian byte image of a 32-bit value. -/
def leBytes32 (n : Nat) : List Nat :=
  [n % 2 ^ 8, n / 2 ^ 8 % 2 ^ 8, n / 2 ^ 16 % 2 ^ 8, n / 2 ^ 24 % 2 ^ 8]

/-- The in-memory byte image of a `u32` that is stored without any
conversion: host byte order (`le = true` for a little-endian host). -/
def cpuBytes32 (le : Bool) (n : Nat) : List Nat :=
  if le then leBytes32 n else beBytes32 n

/-- Decode two bytes big-endian. -/
def readBE16 (bs : List Nat) : Nat :=
  match bs with
  | [a, b] => a * 2 ^ 8 + b
  | _ => 0

/-- Decode four bytes big-endian. -/
def readBE32 (bs : List Nat) : Nat :=
  match bs with
  | [a, b, c, d] => ((a * 2 ^ 8 + b) * 2 ^ 8 + c) * 2 ^ 8 + d
  | _ => 0

/-- The protocol magic (`DRBD_MAGIC` in the tree's `drbd.h`). -/
def DRBD_MAGIC : Nat := 0x83740267

/-- Modelled from the spec: the packet tag values of `Drbd_Packet_Cmd`
(declared in `drbd.h`, not under the given sources).  The spec's tag
table fixes the set of tags; the numeric values are immaterial to the
byte-order claims, only the serialization of whatever value the tag has
matters. -/
def Barrier_cmd : Nat := 2
def BarrierAck_cmd : Nat := 3

/-- The wire bytes of the fixed header, as written by `drbd_send`
(drbd_main.c:677-678) and the callers: `magic` is
`cpu_to_be32(DRBD_MAGIC)`, `command` is `cpu_to_be16(cmd)` (set by each
caller), `length` is `cpu_to_be16(data_size)`. -/
def packetHeaderBytes (command : Nat) (data_size : Nat) : List Nat :=
  beBytes32 DRBD_MAGIC ++ beBytes16 command ++ beBytes16 data_size

/-- `_drbd_send_barrier` (drbd_main.c:520): the wire bytes of a
`Barrier` packet for barrier number `bnr` (the value returned by
`tl_add_barrier`).  The `head.h.barrier` field is assigned *without*
`cpu_to_be32`, so its byte image is in host order. -/
def _drbd_send_barrier (le : Bool) (bnr : Nat) : List Nat :=
  packetHeaderBytes Barrier_cmd 0 ++ cpuBytes32 le bnr

/-- `drbd_send_b_ack` (drbd_main.c:538): the wire bytes of a
`BarrierAck` packet.  `head.h.barrier` is copied from the `barrier_nr`
argument *without* conversion (it echoes the peer's value); only
`head.h.set_size` goes through `cpu_to_be32`. -/
def drbd_send_b_ack (le : Bool) (barrier_nr : Nat) (set_size : Nat) : List Nat :=
  packetHeaderBytes BarrierAck_cmd 0 ++ cpuBytes32 le barrier_nr ++ beBytes32 set_size

/-- Modelled from the spec: `ID_SYNCER`, the block-id reserved for
resync traffic (declared in a header not under the given sources; the
spec's block-id contract makes it a reserved `u64` cookie).  Only its
distinctness from application block-ids matters. -/
def ID_SYNCER : Nat := 2 ^ 64 - 1

/-- Modelled from the spec: `sizeof(Drbd_Data_Packet)` — the fixed
header (u32 magic + u16 command + u16 length, §6) followed by the
`Data` payload prefix `u64 block_nr, u64 block_id` (§6): 24 bytes. -/
def DATA_HEAD_SIZE : Nat := 24

/-- The `mdev` fields `drbd_send_data` uses besides the socket: the old
transfer log (here only the cookies added by `tl_add`), the
`ISSUE_BARRIER` flag bit and the wire protocol. -/
structure SendDataState where
  tl_ids : List Nat
  issue_barrier : Bool
  wire_protocol : Nat
  deriving DecidableEq, Repr

/-- The outcome of `drbd_send_data`: updated state, whether a barrier
was sent first (`test_and_clear_bit(ISSUE_BARRIER)`), whether
`inc_pending` ran, the block marked out-of-sync (if any), and the return
value. -/
structure SendDataResult where
  st : SendDataState
  barrier_sent : Bool
  inc_pending : Bool
  oos_blocknr : Option Nat
  ret : Int
  deriving DecidableEq, Repr

/-- `drbd_send_data` (drbd_main.c:568).  `send_result` is what the
inner `drbd_send` returned (bytes sent, or an error code).  A full send
is `send_result == data_size + sizeof(head)`; on a full send of a
mirrored write (`block_id != ID_SYNCER`) the request cookie is appended
to the transfer log (`tl_add`); on anything else the block is marked
out-of-sync (`bm_set_bit(..., block_nr, ..., SS_OUT_OF_SYNC)`) and the
function returns 0.  `inc_pending` runs on a full send for wire
protocols other than A. -/
def drbd_send_data (st : SendDataState) (send_result : Int) (data_size : Nat)
    (block_nr : Nat) (block_id : Nat) : SendDataResult :=
  let barrier_sent := st.issue_barrier
  let st1 := { st with issue_barrier := false }
  let full : Bool := send_result == ((data_size + DATA_HEAD_SIZE : Nat) : Int)
  let incp := full && (st.wire_protocol != DRBD_PROT_A)
  if block_id != ID_SYNCER then
    if full then
      { st := { st1 with tl_ids := st1.tl_ids ++ [block_id] }
        barrier_sent := barrier_sent, inc_pending := incp
        oos_blocknr := none, ret := send_result }
    else
      { st := st1, barrier_sent := barrier_sent, inc_pending := incp
        oos_blocknr := some block_nr, ret := 0 }
  else
    { st := st1, barrier_sent := barrier_sent, inc_pending := incp
      oos_blocknr := none, ret := send_result }

/- ------------------------------------------------------------------ -/
/- Part 3: the claims                                                  -/
/- ------------------------------------------------------------------ -/

/-- C1: whenever `req_may_be_completed` hands the master bio back for
completion, the reported status is success (0) exactly when at least one
of `RQ_LOCAL_OK` and `RQ_NET_OK` is set; when neither is set, the error
is the stored private local error when non-zero, else `-EIO`. -/
theorem c1_completion_success_iff (req : DrbdRequest) (res : Resource) (e : Int)
    (h : (req_may_be_completed req res).m = some e) :
    (e = 0 ↔ (req.rq_state.local_ok || req.rq_state.net_ok) = true) ∧
    ((req.rq_state.local_ok || req.rq_state.net_ok) = false →
      e = (if req.private_error ≠ 0 then req.private_error else -EIO_errno)) := by
  simp only [req_may_be_completed] at h
  split_ifs at h <;> simp_all [EIO_errno] <;>
    first
    | omega
    | (intros; simp_all)

/-- Witness for C1 at a concrete request (local part succeeded, no
network part). -/
theorem c1_completion_success_iff_witness :
    ((0 : Int) = 0 ↔
      (({ write := false, local_pending := false, local_completed := true,
          local_ok := true, local_aborted := false, in_act_log := false,
          net_pending := false, net_queued := false, net_sent := false,
          net_ok := false, net_done := false, net_sis := false,
          exp_receive_ack := false, exp_write_ack := false,
          postponed := false } : RqState).local_ok ||
       ({ write := false, local_pending := false, local_completed := true,
          local_ok := true, local_aborted := false, in_act_log := false,
          net_pending := false, net_queued := false, net_sent := false,
          net_ok := false, net_done := false, net_sis := false,
          exp_receive_ack := false, exp_write_ack := false,
          postponed := false } : RqState).net_ok) = true) ∧
    ((({ write := false, local_pending := false, local_completed := true,
         local_ok := true, local_aborted := false, in_act_log := false,
         net_pending := false, net_queued := false, net_sent := false,
         net_ok := false, net_done := false, net_sis := false,
         exp_receive_ack := false, exp_write_ack := false,
         postponed := false } : RqState).local_ok ||
      ({ write := false, local_pending := false, local_completed := true,
         local_ok := true, local_aborted := false, in_act_log := false,
         net_pending := false, net_queued := false, net_sent := false,
         net_ok := false, net_done := false, net_sis := false,
         exp_receive_ack := false, exp_write_ack := false,
         postponed := false } : RqState).net_ok) = false →
      (0 : Int) = (if (0 : Int) ≠ 0 then (0 : Int) else -EIO_errno)) :=
  c1_completion_success_iff
    { rq_state :=
        { write := false, local_pending := false, local_completed := true,
          local_ok := true, local_aborted := false, in_act_log := false,
          net_pending := false, net_queued := false, net_sent := false,
          net_ok := false, net_done := false, net_sis := false,
          exp_receive_ack := false, exp_write_ack := false, postponed := false }
      master_bio := true, private_error := 0, interval_empty := true,
      in_tl := false, epoch := 0 }
    { current_tle_writes := 0, current_tle_nr := 0 } 0 (by decide)

/-- C2 counterexample.  The claim's iff fails on the `RQ_POSTPONED` retry
path of `req_may_be_done`/`_req_is_done`.  First instance: a postponed,
net-done write reaches `_req_is_done` (it is removed from the transfer
log and its life in the state machine ends) although `master_bio` is
still attached — "destroyed only if master_bio is null" fails.  Second
instance: a request with `master_bio` null, `LOCAL_PENDING` clear and
`RQ_NET_DONE` set — all three stated conditions — is *not* freed when
`RQ_POSTPONED` is set; it is handed to the retry queue instead. -/
theorem c2_destroy_counterexample :
    ((req_may_be_done
        ⟨⟨true, false, true, true, false, false, false, false, true, false,
          true, false, false, true, true⟩, true, 0, true, true, 0⟩).reached = true ∧
      (⟨⟨true, false, true, true, false, false, false, false, true, false,
          true, false, false, true, true⟩, true, 0, true, true, 0⟩ :
          DrbdRequest).master_bio = true) ∧
    ((⟨⟨true, false, true, true, false, false, false, false, true, false,
          true, false, false, true, true⟩, false, 0, true, true, 0⟩ :
          DrbdRequest).master_bio = false ∧
      (⟨⟨true, false, true, true, false, false, false, false, true, false,
          true, false, false, true, true⟩, false, 0, true, true, 0⟩ :
          DrbdRequest).rq_state.local_pending = false ∧
      (⟨⟨true, false, true, true, false, false, false, false, true, false,
          true, false, false, true, true⟩, false, 0, true, true, 0⟩ :
          DrbdRequest).rq_state.net_done = true ∧
      (req_may_be_done
        ⟨⟨true, false, true, true, false, false, false, false, true, false,
          true, false, false, true, true⟩, false, 0, true, true, 0⟩).freed = false ∧
      (req_may_be_done
        ⟨⟨true, false, true, true, false, false, false, false, true, false,
          true, false, false, true, true⟩, false, 0, true, true, 0⟩).restarted = true) := by
  decide

/-- C2 as amended: a request reaches `_req_is_done` (is removed from the
transfer log and leaves the state machine) iff (`master_bio` is null OR
`RQ_POSTPONED` is set) AND `RQ_LOCAL_PENDING` is clear AND (no
network-mask bit is set OR `RQ_NET_DONE` is set); it is *freed* iff
additionally `RQ_POSTPONED` is clear (a postponed request is handed to
the retry queue instead).  Consequently whenever a request is freed, the
three conditions of the original claim do hold. -/
theorem c2_destructibility (req : DrbdRequest) :
    ((req_may_be_done req).reached = true ↔
      ((req.master_bio = false ∨ req.rq_state.postponed = true) ∧
        req.rq_state.local_pending = false ∧
        (rq_net_mask_set req.rq_state = false ∨ req.rq_state.net_done = true))) ∧
    ((req_may_be_done req).freed = true ↔
      ((req_may_be_done req).reached = true ∧ req.rq_state.postponed = false)) ∧
    ((req_may_be_done req).freed = true →
      req.master_bio = false ∧ req.rq_state.local_pending = false ∧
      (rq_net_mask_set req.rq_state = false ∨ req.rq_state.net_done = true)) := by
  rcases req with ⟨⟨w, lp, lc, lok, lab, ial, np, nq, ns, nok, nd, nsis, era, ewa, pp⟩,
    mb, pe, ie, itl, ep⟩
  cases mb <;> cases pp <;> cases lp <;> cases nd <;>
    simp_all [req_may_be_done, _req_is_done, noneDone, rq_net_mask_set] <;>
    (try (split_ifs at * <;> simp_all))

/-- Witness for C2 at a concrete freed request (no network part, local
part finished, master bio detached). -/
theorem c2_destructibility_witness :
    (⟨⟨false, false, true, true, false, false, false, false, false, false,
        false, false, false, false, false⟩, false, 0, true, false, 0⟩ :
        DrbdRequest).master_bio = false ∧
    (⟨⟨false, false, true, true, false, false, false, false, false, false,
        false, false, false, false, false⟩, false, 0, true, false, 0⟩ :
        DrbdRequest).rq_state.local_pending = false ∧
    (rq_net_mask_set
        (⟨⟨false, false, true, true, false, false, false, false, false, false,
          false, false, false, false, false⟩, false, 0, true, false, 0⟩ :
          DrbdRequest).rq_state = false ∨
      (⟨⟨false, false, true, true, false, false, false, false, false, false,
          false, false, false, false, false⟩, false, 0, true, false, 0⟩ :
          DrbdRequest).rq_state.net_done = true) :=
  (c2_destructibility
    ⟨⟨false, false, true, true, false, false, false, false, false, false,
      false, false, false, false, false⟩, false, 0, true, false, 0⟩).2.2 (by decide)

/-- `req_may_be_completed` changes no state bit except possibly setting
`RQ_POSTPONED` (the failed-READ retry path). -/
lemma req_may_be_completed_state_cases (req : DrbdRequest) (res : Resource) :
    (req_may_be_completed req res).req.rq_state = req.rq_state ∨
    (req_may_be_completed req res).req.rq_state =
      { req.rq_state with postponed := true } := by
  simp only [req_may_be_completed]
  split_ifs <;> simp

/-- `req_may_be_completed` never completes the master bio while
`RQ_NET_PENDING` is set. -/
lemma req_may_be_completed_m_none_of_net_pending (req : DrbdRequest) (res : Resource)
    (h : req.rq_state.net_pending = true) :
    (req_may_be_completed req res).m = none := by
  simp only [req_may_be_completed]
  split_ifs <;> simp_all

/-- The only resource update `req_may_be_completed` can make is one
`start_new_tl_epoch` (the soft epoch close). -/
lemma req_may_be_completed_res_cases (req : DrbdRequest) (res : Resource) :
    (req_may_be_completed req res).res = res ∨
    (req_may_be_completed req res).res = start_new_tl_epoch res := by
  simp only [req_may_be_completed]
  split_ifs <;> simp

/-- The only resource update any `__req_mod` event can make is one
`start_new_tl_epoch` (the hard close at `QUEUE_FOR_NET_WRITE`, or the
soft close inside the completion logic). -/
lemma __req_mod_res_cases (req : DrbdRequest) (res : Resource) (nc : NetConf)
    (susp : Bool) (ev : ReqEvent) :
    (__req_mod req res nc susp ev).res = res ∨
    (__req_mod req res nc susp ev).res = start_new_tl_epoch res := by
  cases ev <;>
    simp only [__req_mod, modNoCompletion, barrierAckedStep,
      req_may_be_completed_not_susp] <;>
    (try split_ifs) <;>
    first
      | exact Or.inl rfl
      | exact req_may_be_completed_res_cases _ _
      | simp

/-- C5: closing an epoch — `start_new_tl_epoch` — increments
`current_tle_nr` by exactly one and resets `current_tle_writes` to 0;
the completion logic (soft close) and every `__req_mod` event (the hard
close at `QUEUE_FOR_NET_WRITE` included) either leave the resource alone
or perform exactly one such close; hence `current_tle_nr` never
decreases under any modelled operation. -/
theorem c5_epoch_close_monotone :
    (∀ res : Resource,
      (start_new_tl_epoch res).current_tle_nr = res.current_tle_nr + 1 ∧
      (start_new_tl_epoch res).current_tle_writes = 0) ∧
    (∀ (req : DrbdRequest) (res : Resource),
      (req_may_be_completed req res).res = res ∨
      (req_may_be_completed req res).res = start_new_tl_epoch res) ∧
    (∀ (req : DrbdRequest) (res : Resource) (nc : NetConf) (susp : Bool)
        (ev : ReqEvent),
      (__req_mod req res nc susp ev).res = res ∨
      (__req_mod req res nc susp ev).res = start_new_tl_epoch res) ∧
    (∀ (req : DrbdRequest) (res : Resource) (nc : NetConf) (susp : Bool)
        (ev : ReqEvent),
      res.current_tle_nr ≤ (__req_mod req res nc susp ev).res.current_tle_nr) := by
  refine ⟨fun res => ⟨rfl, rfl⟩, req_may_be_completed_res_cases, __req_mod_res_cases,
    fun req res nc susp ev => ?_⟩
  rcases __req_mod_res_cases req res nc susp ev with h | h <;>
    simp [h, start_new_tl_epoch]

/-- C4 counterexample: a protocol-A write (`EXP_RECEIVE_ACK` and
`EXP_WRITE_ACK` both clear) whose `RQ_NET_PENDING` was already cleared
by a faster negative ack ("else: neg-ack was faster" in the source) does
*not* get `RQ_NET_OK` set by `HANDED_OVER_TO_NETWORK`; the claim's
unconditional "NET_PENDING is cleared and NET_OK is set" fails on it. -/
theorem c4_protoA_netok_counterexample :
    ((⟨⟨true, false, false, false, false, false, false, true, false, false,
        true, false, false, false, false⟩, true, 0, true, true, 0⟩ :
        DrbdRequest).rq_state.write = true ∧
     (⟨⟨true, false, false, false, false, false, false, true, false, false,
        true, false, false, false, false⟩, true, 0, true, true, 0⟩ :
        DrbdRequest).rq_state.exp_receive_ack = false ∧
     (⟨⟨true, false, false, false, false, false, false, true, false, false,
        true, false, false, false, false⟩, true, 0, true, true, 0⟩ :
        DrbdRequest).rq_state.exp_write_ack = false) ∧
    (__req_mod
        ⟨⟨true, false, false, false, false, false, false, true, false, false,
          true, false, false, false, false⟩, true, 0, true, true, 0⟩
        ⟨0, 0⟩ ⟨Protocol.A, 6, 2, 4⟩ false
        .HandedOverToNetwork).req.rq_state.net_ok = false := by
  decide

/-- The net lifecycle bits other than `RQ_POSTPONED` are untouched by
the completion logic. -/
lemma req_may_be_completed_net_bits (r : DrbdRequest) (x : Resource) :
    (req_may_be_completed r x).req.rq_state.net_queued = r.rq_state.net_queued ∧
    (req_may_be_completed r x).req.rq_state.net_sent = r.rq_state.net_sent ∧
    (req_may_be_completed r x).req.rq_state.net_pending = r.rq_state.net_pending ∧
    (req_may_be_completed r x).req.rq_state.net_ok = r.rq_state.net_ok := by
  rcases req_may_be_completed_state_cases r x with h | h <;> simp [h]

/-- As `req_may_be_completed_net_bits`, through the suspension guard. -/
lemma not_susp_net_bits (b : Bool) (r : DrbdRequest) (x : Resource) :
    (req_may_be_completed_not_susp b r x).req.rq_state.net_queued = r.rq_state.net_queued ∧
    (req_may_be_completed_not_susp b r x).req.rq_state.net_sent = r.rq_state.net_sent ∧
    (req_may_be_completed_not_susp b r x).req.rq_state.net_pending = r.rq_state.net_pending ∧
    (req_may_be_completed_not_susp b r x).req.rq_state.net_ok = r.rq_state.net_ok := by
  cases b
  · simpa [req_may_be_completed_not_susp] using req_may_be_completed_net_bits r x
  · simp [req_may_be_completed_not_susp]

/-- As `req_may_be_completed_m_none_of_net_pending`, through the
suspension guard. -/
lemma not_susp_m_none_of_net_pending (b : Bool) (r : DrbdRequest) (x : Resource)
    (h : r.rq_state.net_pending = true) :
    (req_may_be_completed_not_susp b r x).m = none := by
  cases b <;>
    simp [req_may_be_completed_not_susp, req_may_be_completed_m_none_of_net_pending r x h]

/-- The `HANDED_OVER_TO_NETWORK` arm of `__req_mod`, written out. -/
lemma handed_over_result (req : DrbdRequest) (res : Resource) (nc : NetConf)
    (susp : Bool) :
    __req_mod req res nc susp .HandedOverToNetwork =
      req_may_be_completed_not_susp susp
        { req with rq_state :=
            { (if req.rq_state.write
                  && !(req.rq_state.exp_receive_ack || req.rq_state.exp_write_ack)
                  && req.rq_state.net_pending
               then { req.rq_state with net_pending := false, net_ok := true }
               else req.rq_state) with
              net_queued := false, net_sent := true } } res := rfl

/-- C4 as amended: `HANDED_OVER_TO_NETWORK` clears `RQ_NET_QUEUED` and
sets `RQ_NET_SENT` for every request; for a write with neither
expected-ack bit set (protocol A) it additionally clears
`RQ_NET_PENDING` and sets `RQ_NET_OK` *provided `RQ_NET_PENDING` is
still set* (a faster negative ack may have cleared it, in which case
`RQ_NET_OK` stays clear).  A request that still expects a write ack
(protocol C) and is still `RQ_NET_PENDING` is never handed back for
master-bio completion by this event, while under protocol A a request
can complete right here, before any peer acknowledgement or barrier
ack. -/
theorem c4_handed_over_to_network (req : DrbdRequest) (res : Resource)
    (nc : NetConf) (susp : Bool) :
    ((__req_mod req res nc susp .HandedOverToNetwork).req.rq_state.net_queued = false ∧
     (__req_mod req res nc susp .HandedOverToNetwork).req.rq_state.net_sent = true) ∧
    (req.rq_state.write = true → req.rq_state.exp_receive_ack = false →
      req.rq_state.exp_write_ack = false → req.rq_state.net_pending = true →
      (__req_mod req res nc susp .HandedOverToNetwork).req.rq_state.net_pending = false ∧
      (__req_mod req res nc susp .HandedOverToNetwork).req.rq_state.net_ok = true) ∧
    (req.rq_state.exp_write_ack = true → req.rq_state.net_pending = true →
      (__req_mod req res nc susp .HandedOverToNetwork).m = none) ∧
    (∃ (r : DrbdRequest) (rs : Resource) (c : NetConf),
      r.rq_state.write = true ∧ r.rq_state.exp_receive_ack = false ∧
      r.rq_state.exp_write_ack = false ∧ r.rq_state.net_pending = true ∧
      (__req_mod r rs c false .HandedOverToNetwork).m = some 0) := by
  have heq := handed_over_result req res nc susp
  refine ⟨?_, ?_, ?_,
    ⟨⟨⟨true, false, true, true, false, false, true, true, false, false,
        false, false, false, false, false⟩, true, 0, true, true, 0⟩,
      ⟨0, 0⟩, ⟨Protocol.A, 6, 2, 4⟩,
      by decide, by decide, by decide, by decide, by decide⟩⟩
  · rw [heq]
    obtain ⟨h1, h2, h3, h4⟩ := not_susp_net_bits susp _ res
    exact ⟨h1, h2⟩
  · intro hw hra hwa hp
    rw [heq]
    obtain ⟨h1, h2, h3, h4⟩ := not_susp_net_bits susp _ res
    refine ⟨h3.trans ?_, h4.trans ?_⟩ <;> simp [hw, hra, hwa, hp]
  · intro hwa hp
    rw [heq]
    apply not_susp_m_none_of_net_pending
    simp [hwa, hp]

/-- Witness for C4: the protocol-A branch at a concrete pending write. -/
theorem c4_handed_over_to_network_witness :
    (__req_mod
        ⟨⟨true, false, true, true, false, false, true, true, false, false,
          false, false, false, false, false⟩, true, 0, true, true, 0⟩
        ⟨0, 0⟩ ⟨Protocol.A, 6, 2, 4⟩ false
        .HandedOverToNetwork).req.rq_state.net_pending = false ∧
    (__req_mod
        ⟨⟨true, false, true, true, false, false, true, true, false, false,
          false, false, false, false, false⟩, true, 0, true, true, 0⟩
        ⟨0, 0⟩ ⟨Protocol.A, 6, 2, 4⟩ false
        .HandedOverToNetwork).req.rq_state.net_ok = true :=
  (c4_handed_over_to_network
    ⟨⟨true, false, true, true, false, false, true, true, false, false,
      false, false, false, false, false⟩, true, 0, true, true, 0⟩
    ⟨0, 0⟩ ⟨Protocol.A, 6, 2, 4⟩ false).2.1
    (by decide) (by decide) (by decide) (by decide)

/-- Characterization of the `tl_release` pop loop on a log whose tail
contains a barrier: it passes the first slot plus every further
non-barrier slot, stopping with the next barrier as the new head. -/
lemma tl_release_loop_spec (a : TlEntry) (rest : List TlEntry)
    (h : rest.any TlEntry.isBarrier = true) :
    tl_release_loop (a :: rest) =
      (1 + (rest.takeWhile (fun e => !e.isBarrier)).length,
       rest.dropWhile (fun e => !e.isBarrier), false) := by
  induction rest generalizing a with
  | nil => simp at h
  | cons b t ih =>
    cases b with
    | barrier => simp [tl_release_loop, List.takeWhile_cons, List.dropWhile_cons,
        TlEntry.isBarrier]
    | empty =>
      have ht : t.any TlEntry.isBarrier = true := by
        simpa [TlEntry.isBarrier] using h
      have step : tl_release_loop (a :: TlEntry.empty :: t) =
          ((tl_release_loop (TlEntry.empty :: t)).1 + 1,
           (tl_release_loop (TlEntry.empty :: t)).2.1,
           (tl_release_loop (TlEntry.empty :: t)).2.2) := rfl
      rw [step, ih .empty ht]
      simp [List.takeWhile_cons, List.dropWhile_cons, TlEntry.isBarrier]
      omega
    | req st sec =>
      have ht : t.any TlEntry.isBarrier = true := by
        simpa [TlEntry.isBarrier] using h
      have step : tl_release_loop (a :: TlEntry.req st sec :: t) =
          ((tl_release_loop (TlEntry.req st sec :: t)).1 + 1,
           (tl_release_loop (TlEntry.req st sec :: t)).2.1,
           (tl_release_loop (TlEntry.req st sec :: t)).2.2) := rfl
      rw [step, ih (.req st sec) ht]
      simp [List.takeWhile_cons, List.dropWhile_cons, TlEntry.isBarrier]
      omega

/-- C3 counterexample: `tl_release` called with a barrier number that
does not match `barrier_nr_done`.  The mismatch is recorded by a
`printk(KERN_ERR ...)` only: the connection state is untouched, the
entries are popped anyway, `barrier_nr_done` is incremented and the
function returns normally — nothing resets the session, and no request
state (no `NET_DONE` analogue) is modified anywhere in `tl_release`. -/
theorem c3_mismatch_not_fatal_counterexample :
    (tl_release ⟨[.req 0 1, .req 0 2, .barrier], 5, 9, 3, 12⟩ 7 2).barrier_mismatch
        = true ∧
    (tl_release ⟨[.req 0 1, .req 0 2, .barrier], 5, 9, 3, 12⟩ 7 2).mdev.cstate = 9 ∧
    (tl_release ⟨[.req 0 1, .req 0 2, .barrier], 5, 9, 3, 12⟩ 7 2).mdev.barrier_nr_done
        = 6 ∧
    (tl_release ⟨[.req 0 1, .req 0 2, .barrier], 5, 9, 3, 12⟩ 7 2).epoch_size = 2 ∧
    (tl_release ⟨[.req 0 1, .req 0 2, .barrier], 5, 9, 3, 12⟩ 7 2).messed_up = false ∧
    (tl_release ⟨[.req 0 1, .req 0 2, .barrier], 5, 9, 3, 12⟩ 7 2).mdev.tl
        = [.barrier] := by
  decide

/-- C3 as amended: on a log whose tail holds a barrier, `tl_release`
pops the oldest slots up to (not including) the next barrier marker,
which becomes the new head; `epoch_size` counts every popped slot, less
one when the old head was itself a barrier; the *local counter*
`barrier_nr_done` is compared against the reported `bnr` and
`epoch_size` against the reported `set_size`, each mismatch being logged
(KERN_ERR) while processing continues; `barrier_nr_done` is always
incremented; the connection state is never changed and the surviving
entries are exactly the original ones (no request flag is modified). -/
theorem c3_tl_release_behavior (mdev : Mdev) (bnr ssize : Nat)
    (h : (mdev.tl.drop 1).any TlEntry.isBarrier = true) :
    (tl_release mdev bnr ssize).messed_up = false ∧
    (tl_release mdev bnr ssize).mdev.tl =
      (mdev.tl.drop 1).dropWhile (fun e => !e.isBarrier) ∧
    (tl_release mdev bnr ssize).epoch_size =
      (if mdev.tl.head? = some .barrier then (-1 : Int) else 0) +
        ((1 + ((mdev.tl.drop 1).takeWhile (fun e => !e.isBarrier)).length : Nat) : Int) ∧
    (tl_release mdev bnr ssize).mdev.barrier_nr_done = mdev.barrier_nr_done + 1 ∧
    ((tl_release mdev bnr ssize).barrier_mismatch = true ↔
      mdev.barrier_nr_done ≠ bnr) ∧
    ((tl_release mdev bnr ssize).size_mismatch = true ↔
      (tl_release mdev bnr ssize).epoch_size ≠ (ssize : Int)) ∧
    (tl_release mdev bnr ssize).mdev.cstate = mdev.cstate ∧
    (tl_release mdev bnr ssize).mdev.wire_protocol = mdev.wire_protocol := by
  rcases mdev with ⟨tl, bdone, cst, wp, bsb⟩
  cases tl with
  | nil => simp at h
  | cons a rest =>
    simp only [List.drop_one, List.tail_cons] at h
    simp [tl_release, tl_release_loop_spec a rest h]
    cases a <;> simp

/-- Witness for C3 at a concrete matching barrier ack. -/
theorem c3_tl_release_behavior_witness :
    (tl_release ⟨[.req 0 1, .req 0 2, .barrier], 5, 9, 3, 12⟩ 5 2).mdev.barrier_nr_done
        = 5 + 1 ∧
    (tl_release ⟨[.req 0 1, .req 0 2, .barrier], 5, 9, 3, 12⟩ 5 2).mdev.cstate = 9 :=
  ⟨(c3_tl_release_behavior ⟨[.req 0 1, .req 0 2, .barrier], 5, 9, 3, 12⟩ 5 2
      (by decide)).2.2.2.1,
    (c3_tl_release_behavior ⟨[.req 0 1, .req 0 2, .barrier], 5, 9, 3, 12⟩ 5 2
      (by decide)).2.2.2.2.2.2.1⟩

/-- C6 counterexample: protocol C, one write in the log that was not yet
sent (`rq_status = RQ_DRBD_WRITTEN`, local part done).  `tl_clear` marks
its block out of sync and completes its network part via
`drbd_end_req(*p, RQ_DRBD_SENT, 1)` — with `uptodate = 1`, the *success*
convention of the buffer-head end-io interface this driver uses (cf. the
`drbd_dio_end(struct buffer_head *bh, int uptodate)` declaration in the
same file) — not as a failure: no effect with `uptodate = 0` is ever
emitted. -/
theorem c6_tl_clear_uptodate_counterexample :
    (tl_clear ⟨[.req RQ_DRBD_WRITTEN 8], 0, 9, DRBD_PROT_C, 12⟩).2 =
      [ClearEffect.setOutOfSync 1, ClearEffect.endReq 8 RQ_DRBD_SENT 1,
        ClearEffect.decPending] ∧
    ClearEffect.endReq 8 RQ_DRBD_SENT 0 ∉
      (tl_clear ⟨[.req RQ_DRBD_WRITTEN 8], 0, 9, DRBD_PROT_C, 12⟩).2 := by
  decide

/-- C6 as amended: `tl_clear` empties the log; every live (non-barrier,
non-empty) entry has its covered block marked out-of-sync in the bitmap;
for wire protocols B and C every such write whose masked status is not
exactly `RQ_DRBD_SENT` gets its network completion delivered via
`drbd_end_req(req, RQ_DRBD_SENT, 1)` — i.e. reported as *successful*
(`uptodate = 1`); the out-of-sync bitmap, not a failed completion, is
what forces the redo; no completion with `uptodate = 0` exists. -/
theorem c6_tl_clear_behavior (mdev : Mdev) :
    (tl_clear mdev).1.tl = [] ∧
    (∀ st sec, TlEntry.req st sec ∈ mdev.tl →
      ClearEffect.setOutOfSync (sec >>> (mdev.blk_size_b - 9)) ∈ (tl_clear mdev).2) ∧
    (∀ st sec, TlEntry.req st sec ∈ mdev.tl →
      (mdev.wire_protocol = DRBD_PROT_B ∨ mdev.wire_protocol = DRBD_PROT_C) →
      (st &&& 0xfffe) ≠ RQ_DRBD_SENT →
      ClearEffect.endReq sec RQ_DRBD_SENT 1 ∈ (tl_clear mdev).2) ∧
    (∀ sec ns u, ClearEffect.endReq sec ns u ∈ (tl_clear mdev).2 →
      u = 1 ∧ ns = RQ_DRBD_SENT) := by
  refine ⟨rfl, ?_, ?_, ?_⟩
  · intro st sec hmem
    simp only [tl_clear, List.mem_flatMap]
    exact ⟨TlEntry.req st sec, hmem, by simp [tl_clear_entry]⟩
  · intro st sec hmem hproto hst
    simp only [tl_clear, List.mem_flatMap]
    refine ⟨TlEntry.req st sec, hmem, ?_⟩
    have hp : ((mdev.wire_protocol == DRBD_PROT_B)
        || (mdev.wire_protocol == DRBD_PROT_C)) = true := by
      rcases hproto with h | h <;> simp [h]
    simp [tl_clear_entry, hp, hst]
  · intro sec ns u hmem
    simp only [tl_clear, List.mem_flatMap] at hmem
    obtain ⟨e, he, hin⟩ := hmem
    cases e with
    | barrier => simp [tl_clear_entry] at hin
    | empty => simp [tl_clear_entry] at hin
    | req st sec' =>
      simp only [tl_clear_entry, List.mem_cons] at hin
      rcases hin with hh | hin
      · simp at hh
      · split_ifs at hin with hc
        · simp only [List.mem_cons, List.not_mem_nil, or_false] at hin
          rcases hin with hh | hh
          · simp only [ClearEffect.endReq.injEq] at hh
            exact ⟨hh.2.2, hh.2.1⟩
          · simp at hh
        · simp at hin

/-- Witness for C6: the network completion at a concrete unsent write
carries `uptodate = 1`. -/
theorem c6_tl_clear_behavior_witness :
    ClearEffect.endReq 8 RQ_DRBD_SENT 1 ∈
      (tl_clear ⟨[.req RQ_DRBD_WRITTEN 8], 7, 4, DRBD_PROT_B, 12⟩).2 :=
  (c6_tl_clear_behavior ⟨[.req RQ_DRBD_WRITTEN 8], 7, 4, DRBD_PROT_B, 12⟩).2.2.1
    RQ_DRBD_WRITTEN 8 (by decide) (Or.inl rfl) (by decide)

/-- Big-endian 32-bit encode/decode round trip. -/
lemma readBE32_beBytes32 (n : Nat) (h : n < 2 ^ 32) : readBE32 (beBytes32 n) = n := by
  simp only [readBE32, beBytes32]
  omega

/-- Big-endian 16-bit encode/decode round trip. -/
lemma readBE16_beBytes16 (n : Nat) (h : n < 2 ^ 16) : readBE16 (beBytes16 n) = n := by
  simp only [readBE16, beBytes16]
  omega

/-- C7 counterexample: on a little-endian host the `barrier` field of a
`Barrier` packet is *not* big-endian: `_drbd_send_barrier` stores
`tl_add_barrier`'s value without `cpu_to_be32`, so barrier number 1 goes
out as bytes `[1,0,0,0]`, which a big-endian reader decodes as `2^24`,
not 1. -/
theorem c7_barrier_hostorder_counterexample :
    (_drbd_send_barrier true 1).drop 8 = [1, 0, 0, 0] ∧
    beBytes32 1 = [0, 0, 0, 1] ∧
    (_drbd_send_barrier true 1).drop 8 ≠ beBytes32 1 ∧
    readBE32 ((_drbd_send_barrier true 1).drop 8) = 2 ^ 24 := by
  decide

/-- C7 as amended: the header fields (magic, command, length) and the
`set_size` of `BarrierAck` are serialized big-endian (they decode
correctly with a big-endian reader); the `barrier_nr` of a `Barrier`
packet, and the `barrier_nr` echoed in a `BarrierAck`, are written in
host byte order (no `cpu_to_be32`): little-endian bytes on a
little-endian host, big-endian bytes only on a big-endian host. -/
theorem c7_wire_byte_order (le : Bool) (bnr ssize cmd dsz : Nat)
    (hc : cmd < 2 ^ 16) (hd : dsz < 2 ^ 16) (hs : ssize < 2 ^ 32) :
    readBE32 ((packetHeaderBytes cmd dsz).take 4) = DRBD_MAGIC ∧
    readBE16 (((packetHeaderBytes cmd dsz).drop 4).take 2) = cmd ∧
    readBE16 ((packetHeaderBytes cmd dsz).drop 6) = dsz ∧
    (le = true → (_drbd_send_barrier le bnr).drop 8 = leBytes32 bnr) ∧
    (le = false → (_drbd_send_barrier le bnr).drop 8 = beBytes32 bnr) ∧
    (le = true → (drbd_send_b_ack le bnr ssize).drop 8 =
      leBytes32 bnr ++ beBytes32 ssize) ∧
    (le = false → (drbd_send_b_ack le bnr ssize).drop 8 =
      beBytes32 bnr ++ beBytes32 ssize) ∧
    readBE32 ((drbd_send_b_ack le bnr ssize).drop 12) = ssize := by
  refine ⟨?_, ?_, ?_, ?_, ?_, ?_, ?_, ?_⟩
  · simpa [packetHeaderBytes, beBytes32, beBytes16] using
      readBE32_beBytes32 DRBD_MAGIC (by decide)
  · simpa [packetHeaderBytes, beBytes32, beBytes16] using readBE16_beBytes16 cmd hc
  · simpa [packetHeaderBytes, beBytes32, beBytes16] using readBE16_beBytes16 dsz hd
  · intro h
    simp [_drbd_send_barrier, packetHeaderBytes, cpuBytes32, beBytes32, beBytes16, h]
  · intro h
    simp [_drbd_send_barrier, packetHeaderBytes, cpuBytes32, beBytes32, beBytes16, h]
  · intro h
    simp [drbd_send_b_ack, packetHeaderBytes, cpuBytes32, beBytes32, beBytes16,
      leBytes32, h]
  · intro h
    simp [drbd_send_b_ack, packetHeaderBytes, cpuBytes32, beBytes32, beBytes16, h]
  · cases le <;>
      simpa [drbd_send_b_ack, packetHeaderBytes, cpuBytes32, beBytes32, beBytes16,
        leBytes32] using readBE32_beBytes32 ssize hs

/-- Witness for C7 at concrete values. -/
theorem c7_wire_byte_order_witness :
    readBE32 ((drbd_send_b_ack false 7 3).drop 12) = 3 :=
  (c7_wire_byte_order false 7 3 5 0 (by decide) (by decide) (by decide)).2.2.2.2.2.2.2

/-- C8 counterexample.  With `disk_timeout = 0` (disk timeout disabled)
and `ent = 20` the effective period is `min_not_zero(0, 20) = 20`, not
`min(0, 20) = 0` — the timer keeps running where the claim's formula
would stop it; and with the oldest request started at 10 and `now = 100`
the timer is re-armed at `now + et = 120`, not at the claimed
"later of now and oldest-start + et" `= max(100, 30) = 100`. -/
theorem c8_timer_counterexample :
    (request_timer_fn (some ⟨Protocol.C, 20, 1, 4⟩) (some 0) 10 false
        [⟨⟨false, false, false, false, false, false, true, false, false, false,
            false, false, false, false, false⟩, 10, true⟩] 100).rearm = some 120 ∧
    (120 : Nat) ≠ max 100 (10 + 20) ∧
    min (timer_dt (some 0) 10) (timer_ent (some ⟨Protocol.C, 20, 1, 4⟩) 10) = 0 ∧
    min_not_zero (timer_dt (some 0) 10) (timer_ent (some ⟨Protocol.C, 20, 1, 4⟩) 10)
        = 20 ∧
    (request_timer_fn (some ⟨Protocol.C, 20, 1, 4⟩) (some 0) 10 false
        [⟨⟨false, false, false, false, false, false, true, false, false, false,
            false, false, false, false, false⟩, 10, true⟩] 100).conn_timeout
        = true := by
  decide

/-- C8 as amended: the period is `et = min_not_zero(dt, ent)` (zeros are
ignored; both zero stops the timer); the tick inspects the first (oldest)
transfer-log entry with `NET_PENDING` or `LOCAL_PENDING` set; with `ent`
configured, a `NET_PENDING` oldest request of age ≥ `ent` forces the
connection to `C_TIMEOUT`; with `dt` configured, a `LOCAL_PENDING`
oldest request of this device of age ≥ `dt` escalates a disk error; the
timer is re-armed at `oldest-start + et` when that deadline is still in
the future, and at `now + et` otherwise. -/
theorem c8_request_timer (onc : Option NetConf) (odt : Option Nat) (hz now : Nat)
    (tl : List TimerRequest) (r : TimerRequest)
    (hfind : find_oldest_request tl = some r)
    (het : min_not_zero (timer_dt odt hz) (timer_ent onc hz) ≠ 0) :
    (r.rq_state.net_pending || r.rq_state.local_pending) = true ∧
    r ∈ tl ∧
    ((request_timer_fn onc odt hz false tl now).conn_timeout = true ↔
      (timer_ent onc hz ≠ 0 ∧ r.rq_state.net_pending = true ∧
        r.start_time + timer_ent onc hz ≤ now)) ∧
    ((request_timer_fn onc odt hz false tl now).disk_error = true ↔
      (timer_dt odt hz ≠ 0 ∧ r.rq_state.local_pending = true ∧
        r.device_match = true ∧ r.start_time + timer_dt odt hz ≤ now)) ∧
    (request_timer_fn onc odt hz false tl now).rearm =
      some (if r.start_time + min_not_zero (timer_dt odt hz) (timer_ent onc hz) ≤ now
            then now + min_not_zero (timer_dt odt hz) (timer_ent onc hz)
            else r.start_time + min_not_zero (timer_dt odt hz) (timer_ent onc hz)) := by
  have hfind' : tl.find?
      (fun q => q.rq_state.net_pending || q.rq_state.local_pending) = some r := hfind
  refine ⟨?_, ?_, ?_, ?_, ?_⟩
  · simpa using List.find?_some hfind'
  · exact List.mem_of_find?_eq_some hfind'
  · simp [request_timer_fn, hfind, het, and_assoc]
  · simp [request_timer_fn, hfind, het, and_assoc]
  · simp only [request_timer_fn, hfind, het]
    split_ifs <;> simp_all

/-- Witness for C8 at a concrete expired network request. -/
theorem c8_request_timer_witness :
    (request_timer_fn (some ⟨Protocol.C, 20, 1, 4⟩) (some 30) 10 false
        [⟨⟨false, false, false, false, false, false, true, false, false, false,
            false, false, false, false, false⟩, 10, true⟩] 100).conn_timeout = true :=
  ((c8_request_timer (some ⟨Protocol.C, 20, 1, 4⟩) (some 30) 10 100
      [⟨⟨false, false, false, false, false, false, true, false, false, false,
          false, false, false, false, false⟩, 10, true⟩]
      ⟨⟨false, false, false, false, false, false, true, false, false, false,
          false, false, false, false, false⟩, 10, true⟩
      (by decide) (by decide)).2.2.1).mpr
    ⟨by decide, by decide, by decide⟩

/-- C9 counterexample: a zero-length bio and a 513-byte bio are *not*
rejected by `drbd_make_request` — the size checks are `D_ASSERT`s that
only log ("what we blindly assume" in the source), and the bio is still
submitted into `__drbd_make_request`.  Only the hard-barrier flag leads
to a rejection. -/
theorem c9_no_reject_counterexample :
    (drbd_make_request false 0).submitted = true ∧
    (drbd_make_request false 0).rejected = none ∧
    (drbd_make_request false 0).assert_size_pos = false ∧
    (drbd_make_request false 513).submitted = true ∧
    (drbd_make_request false 513).rejected = none ∧
    (drbd_make_request false 513).assert_size_aligned = false := by
  decide

/-- C9 as amended: `drbd_make_request` rejects a bio (with
`-EOPNOTSUPP`, without submitting it) exactly when the hard-barrier flag
is set; otherwise it submits the bio unconditionally, the zero-size and
512-alignment conditions being checked only by `D_ASSERT` (a log
message), which fails exactly on a zero-size or unaligned bio. -/
theorem c9_make_request_checks (hb : Bool) (sz : Nat) :
    ((drbd_make_request hb sz).submitted = true ↔ hb = false) ∧
    ((drbd_make_request hb sz).rejected = some (-EOPNOTSUPP_errno) ↔ hb = true) ∧
    (hb = false →
      ((drbd_make_request hb sz).assert_size_pos = false ↔ sz = 0) ∧
      ((drbd_make_request hb sz).assert_size_aligned = false ↔ sz % 512 ≠ 0)) := by
  cases hb <;> simp [drbd_make_request]

/-- Witness for C9 at a concrete well-formed write. -/
theorem c9_make_request_checks_witness :
    ((drbd_make_request false 4096).assert_size_pos = false ↔ (4096 : Nat) = 0) ∧
    ((drbd_make_request false 4096).assert_size_aligned = false ↔
      (4096 : Nat) % 512 ≠ 0) :=
  (c9_make_request_checks false 4096).2.2 rfl

/-- C10: a mirrored write (`block_id != ID_SYNCER`) is appended to the
transfer log iff the whole frame (header plus payload) was sent; on a
short or failed send the log is unchanged, the block is marked
out-of-sync and 0 is returned; hence the log never gains a cookie from a
partial transmission. -/
theorem c10_send_data_tl (st : SendDataState) (sr : Int) (ds bn bid : Nat)
    (h : bid ≠ ID_SYNCER) :
    ((drbd_send_data st sr ds bn bid).st.tl_ids = st.tl_ids ++ [bid] ↔
      sr = ((ds + DATA_HEAD_SIZE : Nat) : Int)) ∧
    (sr ≠ ((ds + DATA_HEAD_SIZE : Nat) : Int) →
      (drbd_send_data st sr ds bn bid).st.tl_ids = st.tl_ids ∧
      (drbd_send_data st sr ds bn bid).oos_blocknr = some bn ∧
      (drbd_send_data st sr ds bn bid).ret = 0) ∧
    (∀ x ∈ (drbd_send_data st sr ds bn bid).st.tl_ids,
      x ∈ st.tl_ids ∨ (x = bid ∧ sr = ((ds + DATA_HEAD_SIZE : Nat) : Int))) := by
  by_cases hfull : sr = (ds : Int) + (DATA_HEAD_SIZE : Int) <;>
    simp [drbd_send_data, h, hfull]

/-- Witness for C10: a fully sent 4096-byte write lands on the log. -/
theorem c10_send_data_tl_witness :
    (drbd_send_data ⟨[], false, 3⟩ 4120 4096 5 77).st.tl_ids = [] ++ [77] :=
  (c10_send_data_tl ⟨[], false, 3⟩ 4120 4096 5 77 (by decide)).1.mpr (by decide)
